import Mathlib

/-!
Verification of the search query-construction and filtering engine of the
`circulation` repository (the `Filter` / `Query` / `SortKeyPagination`
machinery of `external_search.py`).

The module itself is represented in the repository through its test suite
(`tests/test_external_search.py`); the definitions below are modelled from
the specification (spec.md §3, §4.1, §4.2, §4.3, §4.5, §5, §7, §8), with
concrete details (field names, clause shapes, tie-breaker orders, retry
behaviour) pinned by the assertions of that test suite.
-/

namespace Circulation

/-! ### String scrubbing (`Filter._scrub`)

Modelled from the spec: "sets of normalized (lowercased, space-stripped)
string tokens" (§3) and "Scrubs all free-text-ish inputs (trims, lowercases,
space-removal)" (§4.1); `tests/test_external_search.py::TestFilter.test__scrub`
pins `_scrub(None) == None` and `_scrub("Young Adult") == "youngadult"`.
Lower-casing is ASCII, matching the normalized index tokens. -/

/-- ASCII lower-casing of a single character: `A`..`Z` map to `a`..`z`,
everything else is unchanged. -/
def lowerChar (c : Char) : Char :=
  if 65 ≤ c.toNat ∧ c.toNat ≤ 90 then Char.ofNat (c.toNat + 32) else c

/-- `Filter._scrub` on a present string: lowercase, then remove spaces. -/
def scrub (s : String) : String :=
  ⟨(s.data.map lowerChar).filter (fun c => c ≠ ' ')⟩

/-- `Filter._scrub` including the `None` passthrough (`_scrub(None) is None`). -/
def scrubOpt (s : Option String) : Option String :=
  s.map scrub

/-! ### Elasticsearch filter clauses

A shallow embedding of the boolean filter trees the compiler emits
(term / terms / range / exists / bool with `minimum_should_match` /
match-none), together with an evaluation semantics against one document. -/

/-- A scalar value stored in one field of an index document. -/
inductive EsValue where
  | str (s : String)
  | num (n : Int)
deriving DecidableEq, Repr

/-- An index document: a partial map from field name to scalar value.
Absent fields model missing metadata. -/
def Doc : Type := String → Option EsValue

/-- The boolean filter trees emitted by the Filter compiler. -/
inductive EsFilter where
  /-- `{'term': {field: value}}` on a string field. -/
  | term (field value : String)
  /-- `{'terms': {field: values}}` on a string field. -/
  | terms (field : String) (values : List String)
  /-- `{'terms': {field: values}}` on a numeric (id) field. -/
  | termsNum (field : String) (values : List Int)
  /-- `{'range': {field: {'gte': n}}}`. -/
  | rangeGte (field : String) (n : Int)
  /-- `{'range': {field: {'lte': n}}}`. -/
  | rangeLte (field : String) (n : Int)
  /-- `{'exists': {'field': field}}`. -/
  | existsField (field : String)
  /-- A `bool` compound clause with `must`, `must_not`, `should` and an
  optional `minimum_should_match`. -/
  | boolF (must mustNot should : List EsFilter) (minimumShouldMatch : Option Nat)
  /-- `MatchNone()` — matches no document (`match_nothing`). -/
  | matchNone

mutual

/-- Evaluate a filter clause against one document.  For a `bool` clause,
every `must` clause must hold, no `must_not` clause may hold, and when
`minimum_should_match` is set at least that many `should` clauses must hold
(the compiler always sets it when `should` is used in filter context). -/
def evalEs (doc : Doc) : EsFilter → Bool
  | .term f v => doc f = some (.str v)
  | .terms f vs =>
      match doc f with
      | some (.str x) => vs.contains x
      | _ => false
  | .termsNum f vs =>
      match doc f with
      | some (.num x) => vs.contains x
      | _ => false
  | .rangeGte f n =>
      match doc f with
      | some (.num x) => n ≤ x
      | _ => false
  | .rangeLte f n =>
      match doc f with
      | some (.num x) => x ≤ n
      | _ => false
  | .existsField f => (doc f).isSome
  | .boolF must mustNot should msm =>
      evalAll doc must && evalNone doc mustNot &&
        (match msm with
         | some m => m ≤ evalCount doc should
         | none => true)
  | .matchNone => false

/-- All clauses in the list hold. -/
def evalAll (doc : Doc) : List EsFilter → Bool
  | [] => true
  | f :: fs => evalEs doc f && evalAll doc fs

/-- No clause in the list holds. -/
def evalNone (doc : Doc) : List EsFilter → Bool
  | [] => true
  | f :: fs => !evalEs doc f && evalNone doc fs

/-- How many clauses in the list hold. -/
def evalCount (doc : Doc) : List EsFilter → Nat
  | [] => 0
  | f :: fs => (if evalEs doc f then 1 else 0) + evalCount doc fs

end

/-- The conjunction `f1 & f2` of two elasticsearch-dsl filter objects:
a `bool` clause whose `must` list holds both. -/
def andFilter (f1 f2 : EsFilter) : EsFilter :=
  .boolF [f1, f2] [] [] none

/-- Modelled from the spec: `Filter._chain_filters`, the generic `chain`
reducer (§4.1) — "combines all main-document clauses via logical AND";
`TestFilter.test__chain_filters` pins: if this filter is the start of the
chain it is returned unaltered, otherwise the chained filter is the
conjunction of the two inputs. -/
def chain_filters (existing : Option EsFilter) (new : EsFilter) : EsFilter :=
  match existing with
  | none => new
  | some f => andFilter f new

/-! ### The Filter data model (spec.md §3) -/

/-- Modelled from the spec: the `Filter` restriction/scoring specification
(§3).  Restriction ids are integers; `target_age` is the already-normalized
optional inclusive range, either bound optional. -/
structure Filter where
  media : List String := []
  languages : List String := []
  fiction : Option Bool := none
  audiences : List String := []
  target_age : Option (Option Int × Option Int) := none
  genre_restriction_sets : List (List Int) := []
  customlist_restriction_sets : List (List Int) := []
  collection_ids : Option (List Int) := none
  license_datasources : Option (List Int) := none
  updated_after : Option Int := none
  match_nothing : Bool := false
  order : Option String := none
  order_ascending : Bool := false
deriving DecidableEq, Repr

/-- The Filter with no restrictions set (`Filter()`). -/
def emptyFilter : Filter := {}

/-! ### Target-age normalization at the constructor (spec.md §3, §4.1) -/

/-- The forms the `target_age` constructor argument can take: absent, a
single integer, an (optional-bound) tuple, or a `NumericRange` whose two
bounds each carry an inclusive/exclusive flag. -/
inductive TargetAgeInput where
  | absent
  | int (n : Int)
  | pair (lo hi : Option Int)
  | numericRange (lo hi : Option Int) (loInclusive hiInclusive : Bool)
deriving DecidableEq, Repr

/-- Modelled from the spec: constructor normalization of `target_age`
(§3 "optional inclusive integer range"); `TestFilter.test_constructor` pins
`Filter(target_age=8).target_age == (8, 8)` and
`Filter(target_age=NumericRange(3, 6, '()')).target_age == (4, 5)`:
a bare integer becomes the one-year inclusive range, and exclusive
`NumericRange` bounds are converted to inclusive integer bounds. -/
def normalizeTargetAge : TargetAgeInput → Option (Option Int × Option Int)
  | .absent => none
  | .int n => some (some n, some n)
  | .pair lo hi => some (lo, hi)
  | .numericRange lo hi loInc hiInc =>
      some (lo.map (fun l => if loInc then l else l + 1),
            hi.map (fun h => if hiInc then h else h - 1))

/-- A Filter built with only a `target_age` constructor argument. -/
def filterWithTargetAge (t : TargetAgeInput) : Filter :=
  { emptyFilter with target_age := normalizeTargetAge t }

/-! ### The target-age subfilter (spec.md §4.1) -/

/-- A clause matching only documents with no value for `field`:
`{'bool': {'must_not': [{'exists': {'field': field}}]}}`. -/
def matchesNonexistentField (field : String) : EsFilter :=
  .boolF [] [.existsField field] [] none

/-- "The work's upper age bound is at least `lowerBound`, or the work has no
upper age bound" — a `bool` `should` dichotomy with
`minimum_should_match=1`. -/
def upperDoesNotExclude (lowerBound : Int) : EsFilter :=
  .boolF [] [] [.rangeGte "target_age.upper" lowerBound,
                matchesNonexistentField "target_age.upper"] (some 1)

/-- "The work's lower age bound is at most `upperBound`, or the work has no
lower age bound" — a `bool` `should` dichotomy with
`minimum_should_match=1`. -/
def lowerDoesNotExclude (upperBound : Int) : EsFilter :=
  .boolF [] [] [.rangeLte "target_age.lower" upperBound,
                matchesNonexistentField "target_age.lower"] (some 1)

/-- Modelled from the spec: `Filter.target_age_filter` (§4.1) — "a work's
upper bound must either exceed the filter's lower bound or be absent;
independently its lower bound must be below the filter's upper bound or be
absent — both conditions required (AND of two ORs)".
`TestFilter.test_target_age_filter` pins the clause shapes, the order
(lower-match first, then upper-match), the single-dichotomy form when only
one bound is present, and that no bounds at all produce no filter. -/
def Filter.target_age_filter (f : Filter) : Option EsFilter :=
  match f.target_age with
  | none => none
  | some (lower, upper) =>
      match lower, upper with
      | none, none => none
      | some l, none => some (upperDoesNotExclude l)
      | none, some u => some (lowerDoesNotExclude u)
      | some l, some u =>
          some (.boolF [lowerDoesNotExclude u, upperDoesNotExclude l] [] [] none)

/-! ### Sort order resolution (spec.md §4.2) -/

/-- One entry of the resolved sort specification. -/
inductive SortClause where
  /-- A plain `{field: direction}` sort on a scalar field. -/
  | simple (field direction : String)
  /-- An aggregate sort over a nested sub-document field ("added to
  collection"): minimum over the nested records, optionally limited by a
  nested filter so that only the license pools in scope contribute. -/
  | nestedMin (field direction nestedPath : String) (nestedFilter : Option EsFilter)
  /-- The server-side scored script for "last update" when collection or
  custom-list restrictions are active, parameterized by those ids. -/
  | scriptSort (direction : String) (collectionIds listIds : List Int)

/-- The fixed tie-breaker fields, in the order they are appended. -/
def TIEBREAKER_FIELDS : List String := ["sort_author", "sort_title", "work_id"]

/-- Modelled from the spec: resolution of one logical sort key to a physical
sort clause (§4.2) — "added to collection" needs an aggregate over license
pools (plus a nested filter when a collection restriction is present);
"last update" needs the scored script exactly when collection or custom-list
restrictions are active; any other nested sub-document field "must fail
loudly (unsupported-sort error)". -/
def Filter.make_order_field (f : Filter) (key direction : String) :
    Except String SortClause :=
  if key = "licensepools.availability_time" then
    .ok (.nestedMin key direction "licensepools"
      (f.collection_ids.map (fun ids => .termsNum "licensepools.collection_id" ids)))
  else if key = "last_update_time" ∧
      (f.collection_ids.isSome ∨ f.customlist_restriction_sets ≠ []) then
    .ok (.scriptSort direction (f.collection_ids.getD [])
      f.customlist_restriction_sets.flatten)
  else if key.data.contains '.' then
    .error ("I don't know how to sort by " ++ key)
  else
    .ok (.simple key direction)

/-- Resolve each primary sort key in turn, propagating the first
unsupported-sort error. -/
def Filter.collectSortClauses (f : Filter) (direction : String) :
    List String → Except String (List SortClause)
  | [] => .ok []
  | k :: ks =>
      match f.make_order_field k direction, f.collectSortClauses direction ks with
      | .error e, _ => .error e
      | .ok _, .error e => .error e
      | .ok c, .ok cs => .ok (c :: cs)

/-- Modelled from the spec: `Filter.sort_order` (§3, §4.2) — the requested
ordering resolved against the fixed mapping, "always terminated by
deterministic tie-breaker fields (author, title, internal work id)", minus
whichever tie-breaker is already used as a primary field.
`TestFilter.test_sort_order` pins the shapes: no order resolves to `[]`;
a simple field gives `{field: direction}` plus the ascending tie-breakers;
ordering by `series_position` uses `sort_title` as its second field, so the
tie-breaker suffix there is title, author, id. -/
def Filter.sort_order (f : Filter) : Except String (List SortClause) :=
  match f.order with
  | none => .ok []
  | some key =>
      let direction := if f.order_ascending then "asc" else "desc"
      let primaryKeys :=
        if key = "series_position" then ["series_position", "sort_title"] else [key]
      match f.collectSortClauses direction primaryKeys with
      | .error e => .error e
      | .ok primaries =>
          .ok (primaries ++
            (TIEBREAKER_FIELDS.filter (fun t => ¬ primaryKeys.contains t)).map
              (fun t => SortClause.simple t "asc"))

/-! ### Constructor keyword checking (spec.md §4.1, §7) -/

/-- The keyword arguments the `Filter` constructor understands. -/
def KNOWN_FILTER_KEYWORDS : List String :=
  ["media", "languages", "fiction", "audiences", "target_age",
   "genre_restriction_sets", "customlist_restriction_sets", "collections",
   "license_datasource", "excluded_audiobook_data_sources", "allow_holds",
   "identifiers", "updated_after", "author", "match_nothing", "facets",
   "min_score", "script_fields"]

/-- Modelled from the spec: the fail-fast keyword check of the `Filter`
constructor (§4.1, §7) — "an unrecognized keyword argument to the
constructor raises a configuration error immediately (fail fast, not at
query time)"; `TestFilter.test_constructor` pins the `ValueError` message
prefix "Unknown keyword arguments". -/
def filterConstructorKeywordCheck (keywordArguments : List String) :
    Except String Unit :=
  let unknown := keywordArguments.filter
    (fun k => ¬ KNOWN_FILTER_KEYWORDS.contains k)
  if unknown.isEmpty then .ok ()
  else .error ("Unknown keyword arguments: " ++ String.intercalate ", " unknown)

/-! ### The filter compiler `build` (spec.md §4.1) -/

/-- Main-document clauses of one Filter, in compilation order; unset
restrictions contribute nothing.  `updated_after` compiles to a `bool`
`must` wrapper around the range clause, as pinned by
`TestFilter.test_build`. -/
def Filter.mainClauses (f : Filter) : List (Option EsFilter) :=
  [ (if f.media.isEmpty then none
     else some (.terms "medium" (f.media.map scrub))),
    (if f.languages.isEmpty then none
     else some (.terms "language" (f.languages.map scrub))),
    f.fiction.map (fun b => .term "fiction" (if b then "fiction" else "nonfiction")),
    (if f.audiences.isEmpty then none
     else some (.terms "audience" (f.audiences.map scrub))),
    f.target_age_filter,
    f.updated_after.map (fun t => .boolF [.rangeGte "last_update_time" t] [] [] none) ]

/-- Nested license-pool clauses: collection and license-data-source
restrictions live on the `licensepools` sub-document (§4.1). -/
def Filter.licensepoolClauses (f : Filter) : List EsFilter :=
  (match f.collection_ids with
   | some ids => [.termsNum "licensepools.collection_id" ids]
   | none => []) ++
  (match f.license_datasources with
   | some ids => [.termsNum "licensepools.data_source_id" ids]
   | none => [])

/-- One nested clause per inner restriction list, so the AND-of-OR intent
survives nesting (§4.1): a nonempty inner list compiles to a `terms` clause
over the ids; an empty inner list means "must have no record in that
dimension". -/
def restrictionSetClause (field : String) : List Int → EsFilter
  | [] => matchesNonexistentField field
  | ids => .termsNum field ids

/-- Modelled from the spec: `Filter.build(chain) -> (main, nested)` (§4.1) —
main-document clauses are combined "via logical AND through a generic
`chain` reducer"; nested restrictions are "emitted as a map keyed by
sub-document path, each value a list of filter clauses"; `match_nothing`
forces an empty result set.  `TestFilter.test_build` pins that an empty
Filter builds to `(None, {})`.  The nested map is an association list of
(path, clauses), empty when no nested restriction is set. -/
def Filter.build (f : Filter)
    (chain : Option EsFilter → EsFilter → EsFilter) :
    Option EsFilter × List (String × List EsFilter) :=
  if f.match_nothing then (some .matchNone, []) else
  let main := f.mainClauses.foldl
    (fun acc c =>
      match c with
      | none => acc
      | some c => some (chain acc c)) none
  let lp := f.licensepoolClauses
  let nested :=
    (if lp.isEmpty then [] else [("licensepools", lp)]) ++
    (if f.genre_restriction_sets.isEmpty then []
     else [("genres",
            f.genre_restriction_sets.map (restrictionSetClause "genres.term"))]) ++
    (if f.customlist_restriction_sets.isEmpty then []
     else [("customlists",
            f.customlist_restriction_sets.map
              (restrictionSetClause "customlists.list_id"))])
  (main, nested)

/-! ### Query and the fuzzy-match coefficient (spec.md §3, §4.3) -/

/-- A `Query`: one free-text query string; at construction it computes,
once, whether the string contains stopwords and whether all its words pass
the spellcheck dictionary (§3). -/
structure Query where
  query_string : String
  contains_stopwords : Bool
  all_words_pass_spellcheck : Bool
deriving DecidableEq, Repr

/-- Modelled from the spec: the `Query` constructor (§3) — "computes, once,
whether the string contains stopwords and whether all its words pass a
spellcheck-like dictionary check".  The stopword set and the spellcheck
dictionary are the two membership predicates; words are the space-separated
tokens of the query string. -/
def Query.make (stopword spellcheck : String → Bool) (s : String) : Query :=
  let words := s.splitOn " "
  { query_string := s,
    contains_stopwords := words.any stopword,
    all_words_pass_spellcheck := words.all spellcheck }

/-- Modelled from the spec: `Query.fuzzy_coefficient` (§4.3) — "full weight
(1.0) if the query contains a recognized stopword or any word fails a
spelling check ..., otherwise reduced (0.5)".
`TestQuery.test_constructor` pins 0.5 for a clean query and 1 for
"just a xlomph". -/
def Query.fuzzy_coefficient (q : Query) : ℚ :=
  if q.contains_stopwords || !q.all_words_pass_spellcheck then 1 else 1 / 2

/-- The kinds of per-field hypotheses the builder generates (§4.3). -/
inductive HypothesisKind where
  | exactKeyword
  | phrase
  | fuzzy
deriving DecidableEq, Repr

/-- One scored hypothesis: a candidate interpretation of the query against
one field, with its boost weight. -/
structure Hypothesis where
  kind : HypothesisKind
  field : String
  weight : ℚ
deriving DecidableEq, Repr

/-- Modelled from the spec: the per-field hypotheses of the Hypothesis
Builder (§4.3) — exact-keyword match at about 1000 times the base weight,
phrase match at the base weight, and a fuzzy match at the base weight times
the per-query fuzzy coefficient, generated only when fuzziness is
enabled. -/
def fieldHypotheses (q : Query) (field : String) (baseWeight : ℚ)
    (fuzzyEnabled : Bool) : List Hypothesis :=
  [⟨.exactKeyword, field, 1000 * baseWeight⟩,
   ⟨.phrase, field, baseWeight⟩] ++
  (if fuzzyEnabled then [⟨.fuzzy, field, baseWeight * q.fuzzy_coefficient⟩]
   else [])

/-! ### Sort-key pagination (spec.md §3, §4.5) -/

/-- The backend sort-key tuple of one hit (`hit.meta.sort`). -/
def SortKey : Type := List Int

/-- Modelled from the spec: `SortKeyPagination` (§3) — "holds `size`, an
optional `last_item_on_previous_page` ..., and, after a page loads,
`this_page_size` and `last_item_on_this_page`". -/
structure SortKeyPagination where
  size : Nat := 50
  last_item_on_previous_page : Option SortKey := none
  this_page_size : Option Nat := none
  last_item_on_this_page : Option SortKey := none

/-- Modelled from the spec: `page_loaded(hits)` (§4.5) — "records page size
and the sort-key of the last hit; transitions to loaded".  Hits are
represented by their sort keys. -/
def SortKeyPagination.page_loaded (p : SortKeyPagination) (hits : List SortKey) :
    SortKeyPagination :=
  { p with
    this_page_size := some hits.length,
    last_item_on_this_page :=
      match hits.getLast? with
      | some k => some k
      | none => p.last_item_on_this_page }

/-- Modelled from the spec: `next_page` (§4.5) — "only defined after
`page_loaded`; if the loaded page was empty, there is no next page
(terminal).  Otherwise produces a new cursor seeded with this page's last
sort key, itself unloaded."  `TestSortKeyPagination.test_next_page` pins
that the new cursor keeps the page size and knows nothing about its own
page yet. -/
def SortKeyPagination.next_page (p : SortKeyPagination) :
    Option SortKeyPagination :=
  if p.this_page_size = some 0 then none
  else
    match p.last_item_on_this_page with
    | none => none
    | some last =>
        some { size := p.size,
               last_item_on_previous_page := some last,
               this_page_size := none,
               last_item_on_this_page := none }

/-- Modelled from the spec: the total result count is never known — the
strategy "does not know the total result count" (§4.5);
`TestSortKeyPagination.test_unimplemented_features` pins the undefined
(`None`) value. -/
def SortKeyPagination.total_size (_ : SortKeyPagination) : Option Nat := none

/-- Modelled from the spec: navigating to a previous page is not supported —
the strategy "is inherently forward-only" (§4.5); the test suite pins the
undefined (`None`) value. -/
def SortKeyPagination.previous_page (_ : SortKeyPagination) :
    Option SortKeyPagination := none

/-- Modelled from the spec: applying the cursor to a database-style offset
query is not supported (§4.5); the test suite pins the
`NotImplementedError` and its message. -/
def SortKeyPagination.modify_database_query {α : Type}
    (_ : SortKeyPagination) (_ : α) : Except String α :=
  .error "SortKeyPagination does not work with database queries."

/-! ### Bulk indexing (spec.md §5, §7) -/

/-- A catalog work to be indexed; its document id is the work id. -/
structure WorkRec where
  id : Nat
deriving DecidableEq, Repr

/-- One per-document error reported by the backend bulk call: which document
failed and the error message. -/
structure BulkError where
  doc_id : Nat
  message : String
deriving DecidableEq, Repr

/-- Partition a batch into successes and failures from the backend's
per-document error list: the works not named by any error succeed; each
error is mapped back to its originating work, paired with the error
message. -/
def partitionResults (works : List WorkRec) (errors : List BulkError) :
    List WorkRec × List (WorkRec × String) :=
  (works.filter (fun w => ¬ (errors.map (fun e => e.doc_id)).contains w.id),
   errors.filterMap
     (fun e => (works.find? (fun w => w.id = e.doc_id)).map
       (fun w => (w, e.message))))

/-- Modelled from the spec: `bulk_update` (§5, §7) — outcomes "are
partitioned per-document into successes and failures, each failure carrying
the originating object and an error message"; "a backend-level transient
failure (e.g., connection timeout) triggers exactly one retry of the full
batch before the failures are considered durable".  A transient
backend-level failure manifests as the whole batch failing, as pinned by
`TestSearchErrors.test_search_connection_timeout` (every document errors
with `ConnectionTimeout`; the batch is resubmitted once with the same
arguments).  The backend `bulk` call is a function of the attempt number
and the submitted document ids; the second component of the result is the
list of submissions actually made. -/
def bulk_update (bulk : Nat → List Nat → List BulkError)
    (works : List WorkRec) :
    (List WorkRec × List (WorkRec × String)) × List (List Nat) :=
  let docs := works.map (fun w => w.id)
  let firstErrors := bulk 0 docs
  if firstErrors.length = docs.length then
    -- The entire batch failed: presumed transient; retry once with the
    -- same arguments, then treat the second round of failures as durable.
    (partitionResults works (bulk 1 docs), [docs, docs])
  else
    (partitionResults works firstErrors, [docs])

/-! ### Helper lemmas -/

/-- Lower-casing an upper-case letter lands in the lower-case letter range. -/
theorem lowerChar_toNat_range (c : Char) (h1 : 65 ≤ c.toNat) (h2 : c.toNat ≤ 90) :
    97 ≤ (lowerChar c).toNat ∧ (lowerChar c).toNat ≤ 122 := by
  unfold lowerChar
  rw [if_pos ⟨h1, h2⟩]
  interval_cases h : c.toNat <;> decide

/-- `lowerChar` leaves non-upper-case characters alone. -/
theorem lowerChar_eq_self (c : Char) (h : ¬ (65 ≤ c.toNat ∧ c.toNat ≤ 90)) :
    lowerChar c = c := by
  unfold lowerChar
  rw [if_neg h]

/-- `lowerChar` is idempotent. -/
theorem lowerChar_idem (c : Char) : lowerChar (lowerChar c) = lowerChar c := by
  by_cases h : 65 ≤ c.toNat ∧ c.toNat ≤ 90
  · have hr := lowerChar_toNat_range c h.1 h.2
    exact lowerChar_eq_self _ (by omega)
  · rw [lowerChar_eq_self c h]
    exact lowerChar_eq_self c h

/-- `scrub` is idempotent: its output is already lower-case and space-free. -/
theorem scrub_idem (s : String) : scrub (scrub s) = scrub s := by
  unfold scrub
  apply congrArg String.mk
  have hmem : ∀ x ∈ (s.data.map lowerChar).filter (fun c => c ≠ ' '),
      lowerChar x = x := by
    intro x hx
    have hx' := List.mem_of_mem_filter hx
    obtain ⟨y, _, rfl⟩ := List.mem_map.mp hx'
    exact lowerChar_idem y
  rw [List.map_congr_left hmem, List.map_id']
  apply List.filter_eq_self.mpr
  intro a ha
  exact (List.mem_filter.mp ha).2

/-! ### The claims -/

/-- C8: the string scrubber used on free-text filter inputs lowercases and
removes spaces — in particular `scrub "Young Adult" = "youngadult"` and
scrubbing `None` gives `None` — and scrubbing is idempotent: for every
string `x`, `scrub (scrub x) = scrub x`. -/
theorem claim_C8_scrub_lowercases_despaces_idempotent :
    scrub "Young Adult" = "youngadult" ∧ scrubOpt none = none ∧
    (∀ x : String,
      scrub x = ⟨(x.data.map lowerChar).filter (fun c => c ≠ ' ')⟩) ∧
    ∀ x : String, scrub (scrub x) = scrub x :=
  ⟨by decide, rfl, fun _ => rfl, scrub_idem⟩

/-- C2: on every `SortKeyPagination` cursor, the operations this forward-only
strategy does not support — the total result count, the previous page, and
applying the cursor to a database-style offset query — signal "not
supported" (the undefined value for the two properties, an explicit
not-implemented error for the database query) instead of silently returning
a result. -/
theorem claim_C2_pagination_unsupported_operations :
    ∀ p : SortKeyPagination,
      p.total_size = none ∧ p.previous_page = none ∧
      ∀ (α : Type) (q : α),
        p.modify_database_query q =
          Except.error "SortKeyPagination does not work with database queries." :=
  fun _ => ⟨rfl, rfl, fun _ _ => rfl⟩

/-- C9: the Filter constructor normalizes `target_age` at the public
interface: a single integer `n` becomes the inclusive pair `(n, n)`; the
numeric range `(3, 6, '()')` with exclusive bounds becomes the inclusive
pair `(4, 5)`; and both an absent `target_age` and `target_age=(None, None)`
yield no target-age restriction. -/
theorem claim_C9_target_age_normalization :
    (∀ n : Int, normalizeTargetAge (.int n) = some (some n, some n)) ∧
    normalizeTargetAge (.numericRange (some 3) (some 6) false false) =
      some (some 4, some 5) ∧
    (filterWithTargetAge .absent).target_age_filter = none ∧
    (filterWithTargetAge (.pair none none)).target_age_filter = none :=
  ⟨fun _ => rfl, rfl, rfl, rfl⟩

/-- C10: an empty Filter builds to exactly `(none, [])` — no main filter
clause and an empty nested-filter map, whatever chain reducer is used — and
the filter chainer has `none` as its left identity: chaining onto `none`
returns the new clause unaltered, while chaining onto an existing clause
returns the conjunction of the two. -/
theorem claim_C10_empty_build_and_chain_identity :
    emptyFilter.build chain_filters = (none, []) ∧
    (∀ chain, emptyFilter.build chain = (none, [])) ∧
    (∀ f : EsFilter, chain_filters none f = f) ∧
    (∀ f1 f2 : EsFilter, chain_filters (some f1) f2 = andFilter f1 f2) :=
  ⟨rfl, fun _ => rfl, fun _ => rfl, fun _ _ => rfl⟩

/-- C3: `next_page` is undefined before this page's size and last item are
known; once known, an empty page (`this_page_size = 0`) is terminal and has
no next page; otherwise `next_page` is a new, itself-unloaded cursor whose
`last_item_on_previous_page` is the sort key of the last hit recorded by
`page_loaded` on this page. -/
theorem claim_C3_next_page_state_machine :
    (∀ p : SortKeyPagination, p.this_page_size = none →
      p.last_item_on_this_page = none → p.next_page = none) ∧
    (∀ p : SortKeyPagination, p.this_page_size = some 0 → p.next_page = none) ∧
    (∀ (p : SortKeyPagination) (hits : List SortKey) (k : SortKey),
      hits.getLast? = some k →
      (p.page_loaded hits).next_page =
        some { size := p.size, last_item_on_previous_page := some k,
               this_page_size := none, last_item_on_this_page := none }) := by
  refine ⟨?_, ?_, ?_⟩
  · intro p h1 h2
    simp [SortKeyPagination.next_page, h1, h2]
  · intro p h
    simp [SortKeyPagination.next_page, h]
  · intro p hits k hk
    have hne : hits ≠ [] := by
      intro h
      subst h
      simp at hk
    have hlen : hits.length ≠ 0 := by
      simpa [List.length_eq_zero] using hne
    simp [SortKeyPagination.page_loaded, SortKeyPagination.next_page, hk, hlen]

/-- C3 witness: a fresh cursor has no next page; a loaded-empty cursor has
no next page; loading a two-hit page produces an unloaded next cursor seeded
with the last sort key. -/
theorem claim_C3_next_page_witness :
    (SortKeyPagination.mk 50 none none none).next_page = none ∧
    (SortKeyPagination.mk 50 none (some 0) (some [7])).next_page = none ∧
    ((SortKeyPagination.mk 50 none none none).page_loaded [[1], [2]]).next_page =
      some { size := 50, last_item_on_previous_page := some [2],
             this_page_size := none, last_item_on_this_page := none } :=
  ⟨claim_C3_next_page_state_machine.1 _ rfl rfl,
   claim_C3_next_page_state_machine.2.1 _ rfl,
   claim_C3_next_page_state_machine.2.2 _ [[1], [2]] [2] rfl⟩

/-- A work with no value in either target-age field satisfies the
lower-bound dichotomy (shared by the C1 proof and its witness). -/
theorem evalEs_lowerDoesNotExclude (doc : Doc) (u : Int)
    (hlo : doc "target_age.lower" = none) :
    evalEs doc (lowerDoesNotExclude u) = true := by
  simp [lowerDoesNotExclude, matchesNonexistentField, evalEs, evalAll,
        evalNone, evalCount, hlo]

/-- A work with no value in either target-age field satisfies the
upper-bound dichotomy. -/
theorem evalEs_upperDoesNotExclude (doc : Doc) (l : Int)
    (hhi : doc "target_age.upper" = none) :
    evalEs doc (upperDoesNotExclude l) = true := by
  simp [upperDoesNotExclude, matchesNonexistentField, evalEs, evalAll,
        evalNone, evalCount, hhi]

/-- C1: when both target-age bounds are present, the compiled
`target_age_filter` is a conjunction of two disjunctions — (work upper bound
≥ filter lower bound OR work upper bound absent) AND (work lower bound ≤
filter upper bound OR work lower bound absent) — and consequently a work
with no target-age metadata satisfies every compiled target-age filter. -/
theorem claim_C1_target_age_filter_conjunction_of_disjunctions
    (f : Filter) (l u : Int) (h : f.target_age = some (some l, some u)) :
    f.target_age_filter =
      some (.boolF [lowerDoesNotExclude u, upperDoesNotExclude l] [] [] none) ∧
    ∀ (f' : Filter) (g : EsFilter), f'.target_age_filter = some g →
      ∀ doc : Doc, doc "target_age.lower" = none →
        doc "target_age.upper" = none → evalEs doc g = true := by
  constructor
  · unfold Filter.target_age_filter
    rw [h]
  · intro f' g hg doc hlo hhi
    unfold Filter.target_age_filter at hg
    rcases hta : f'.target_age with _ | ⟨lo, hi⟩
    · rw [hta] at hg
      cases hg
    · rw [hta] at hg
      rcases lo with _ | l'
      · rcases hi with _ | u'
        · exact Option.noConfusion hg
        · rw [← Option.some.inj hg]
          exact evalEs_lowerDoesNotExclude doc u' hlo
      · rcases hi with _ | u'
        · rw [← Option.some.inj hg]
          exact evalEs_upperDoesNotExclude doc l' hhi
        · rw [← Option.some.inj hg]
          have hb : evalEs doc (EsFilter.boolF
              [lowerDoesNotExclude u', upperDoesNotExclude l'] [] [] none) =
              (evalEs doc (lowerDoesNotExclude u') &&
               evalEs doc (upperDoesNotExclude l')) := by
            simp [evalEs, evalAll, evalNone]
          rw [hb, evalEs_lowerDoesNotExclude doc u' hlo,
              evalEs_upperDoesNotExclude doc l' hhi]
          rfl

/-- C1 witness: the "ages 2 to 5" filter compiles to the AND of the two
dichotomies, and a document with no target-age metadata matches it. -/
theorem claim_C1_target_age_filter_witness :
    (filterWithTargetAge (.pair (some 2) (some 5))).target_age_filter =
      some (.boolF [lowerDoesNotExclude 5, upperDoesNotExclude 2] [] [] none) ∧
    ∀ (f' : Filter) (g : EsFilter), f'.target_age_filter = some g →
      ∀ doc : Doc, doc "target_age.lower" = none →
        doc "target_age.upper" = none → evalEs doc g = true :=
  claim_C1_target_age_filter_conjunction_of_disjunctions
    (filterWithTargetAge (.pair (some 2) (some 5))) 2 5 rfl

/-- C5: the fuzzy-match coefficient computed at Query construction is 1
exactly when the query string contains a recognized stopword or some word
fails the spellcheck dictionary, and 1/2 otherwise; and every fuzzy
hypothesis weight is the base weight scaled by this per-query
coefficient. -/
theorem claim_C5_fuzzy_coefficient (stopword spellcheck : String → Bool)
    (s : String) :
    ((Query.make stopword spellcheck s).fuzzy_coefficient = 1 ↔
       (∃ w ∈ s.splitOn " ", stopword w = true) ∨
       (∃ w ∈ s.splitOn " ", spellcheck w = false)) ∧
    ((Query.make stopword spellcheck s).fuzzy_coefficient = 1 / 2 ↔
       ¬ ((∃ w ∈ s.splitOn " ", stopword w = true) ∨
          (∃ w ∈ s.splitOn " ", spellcheck w = false))) ∧
    ∀ (field : String) (baseWeight : ℚ) (h : Hypothesis),
      h ∈ fieldHypotheses (Query.make stopword spellcheck s) field baseWeight true →
      h.kind = HypothesisKind.fuzzy →
      h.weight =
        baseWeight * (Query.make stopword spellcheck s).fuzzy_coefficient := by
  have hcond : ((Query.make stopword spellcheck s).contains_stopwords ||
      !(Query.make stopword spellcheck s).all_words_pass_spellcheck) = true ↔
      ((∃ w ∈ s.splitOn " ", stopword w = true) ∨
       (∃ w ∈ s.splitOn " ", spellcheck w = false)) := by
    simp [Query.make, List.any_eq_true, List.all_eq_true]
  refine ⟨?_, ?_, ?_⟩
  · rw [← hcond]
    unfold Query.fuzzy_coefficient
    by_cases hc : ((Query.make stopword spellcheck s).contains_stopwords ||
        !(Query.make stopword spellcheck s).all_words_pass_spellcheck) = true
    · rw [if_pos hc]
      simp [hc]
    · rw [if_neg hc]
      simp only [hc]
      norm_num
  · rw [← hcond]
    unfold Query.fuzzy_coefficient
    by_cases hc : ((Query.make stopword spellcheck s).contains_stopwords ||
        !(Query.make stopword spellcheck s).all_words_pass_spellcheck) = true
    · rw [if_pos hc]
      simp only [hc]
      norm_num
    · rw [if_neg hc]
      simp [hc]
  · intro field baseWeight h hmem hkind
    simp only [fieldHypotheses, if_true, List.cons_append, List.nil_append,
               List.mem_cons, List.not_mem_nil, or_false] at hmem
    rcases hmem with rfl | rfl | rfl
    · cases hkind
    · cases hkind
    · rfl

/-- The concrete stopword set used by the C5 witness. -/
def demoStopword (w : String) : Bool := w = "a"

/-- The concrete spellcheck dictionary used by the C5 witness. -/
def demoSpellcheck (w : String) : Bool := w ≠ "xlomph"

/-- C5 witness: for a concrete stopword set and dictionary, the clean query
"moby dick" gets coefficient 1/2, "just a xlomph" (stopword "a", misspelled
word) gets coefficient 1, and the fuzzy title hypothesis of the clean query
carries the scaled weight. -/
theorem claim_C5_fuzzy_coefficient_witness :
    ((Query.make demoStopword demoSpellcheck "moby dick").fuzzy_coefficient = 1 / 2 ↔
       ¬ ((∃ w ∈ ("moby dick").splitOn " ", demoStopword w = true) ∨
          (∃ w ∈ ("moby dick").splitOn " ", demoSpellcheck w = false))) ∧
    ((Query.make demoStopword demoSpellcheck "just a xlomph").fuzzy_coefficient = 1 ↔
       (∃ w ∈ ("just a xlomph").splitOn " ", demoStopword w = true) ∨
       (∃ w ∈ ("just a xlomph").splitOn " ", demoSpellcheck w = false)) ∧
    (Hypothesis.mk .fuzzy "title" ((100 : ℚ) * (1 / 2)) ∈
      fieldHypotheses (Query.make demoStopword demoSpellcheck "moby dick")
        "title" 100 true →
      (Hypothesis.mk .fuzzy "title" ((100 : ℚ) * (1 / 2))).kind =
        HypothesisKind.fuzzy →
      (Hypothesis.mk .fuzzy "title" ((100 : ℚ) * (1 / 2))).weight =
        100 * (Query.make demoStopword demoSpellcheck "moby dick").fuzzy_coefficient) :=
  ⟨(claim_C5_fuzzy_coefficient demoStopword demoSpellcheck "moby dick").2.1,
   (claim_C5_fuzzy_coefficient demoStopword demoSpellcheck "just a xlomph").1,
   (claim_C5_fuzzy_coefficient demoStopword demoSpellcheck "moby dick").2.2
     "title" 100 _⟩

/-- C6: an unrecognized keyword argument makes the Filter constructor fail
immediately with the "Unknown keyword arguments" configuration error, and
resolving the sort order for a nested sub-document field outside the fixed
sort mapping fails with the unsupported-sort error rather than silently
degrading. -/
theorem claim_C6_fail_fast_configuration_errors
    (kwargs : List String) (k : String) (hk : k ∈ kwargs)
    (hunknown : k ∉ KNOWN_FILTER_KEYWORDS) :
    (∃ msg, filterConstructorKeywordCheck kwargs = Except.error msg) ∧
    ∀ (f : Filter) (field : String), f.order = some field →
      field.data.contains '.' = true →
      field ≠ "licensepools.availability_time" →
      f.sort_order = Except.error ("I don't know how to sort by " ++ field) := by
  constructor
  · have hne : ¬ (kwargs.filter
        (fun x => ¬ KNOWN_FILTER_KEYWORDS.contains x)).isEmpty = true := by
      intro hempty
      have hmem : k ∈ kwargs.filter
          (fun x => ¬ KNOWN_FILTER_KEYWORDS.contains x) := by
        rw [List.mem_filter]
        exact ⟨hk, by simp [hunknown]⟩
      rw [List.isEmpty_iff] at hempty
      rw [hempty] at hmem
      cases hmem
    unfold filterConstructorKeywordCheck
    rw [if_neg hne]
    exact ⟨_, rfl⟩
  · intro f field horder hdot havail
    have hsp : field ≠ "series_position" := by
      intro he
      rw [he] at hdot
      exact absurd hdot (by decide)
    have hlu : ¬ (field = "last_update_time" ∧
        (f.collection_ids.isSome ∨ f.customlist_restriction_sets ≠ [])) := by
      rintro ⟨he, -⟩
      rw [he] at hdot
      exact absurd hdot (by decide)
    have hmk : ∀ direction, f.make_order_field field direction =
        Except.error ("I don't know how to sort by " ++ field) := by
      intro direction
      unfold Filter.make_order_field
      rw [if_neg havail, if_neg hlu, if_pos hdot]
    unfold Filter.sort_order
    rw [horder]
    simp only [if_neg hsp]
    unfold Filter.collectSortClauses
    rw [hmk]

/-- C6 witness: the keyword `no_such_keyword` is rejected by the constructor
check, and sorting by the unmapped nested field `subdocument.field` is
rejected by `sort_order`. -/
theorem claim_C6_fail_fast_witness :
    (∃ msg, filterConstructorKeywordCheck ["no_such_keyword"] =
      Except.error msg) ∧
    ∀ (f : Filter) (field : String), f.order = some field →
      field.data.contains '.' = true →
      field ≠ "licensepools.availability_time" →
      f.sort_order = Except.error ("I don't know how to sort by " ++ field) :=
  claim_C6_fail_fast_configuration_errors ["no_such_keyword"] "no_such_keyword"
    (by decide) (by decide)

/-- The primary physical field of one sort clause (used to discriminate two
sort orders). -/
def sortClauseField : SortClause → String
  | .simple f _ => f
  | .nestedMin f _ _ _ => f
  | .scriptSort _ _ _ => "last_update_time"

/-- A filter sorted ascending by series position. -/
def seriesPositionFilter : Filter :=
  { emptyFilter with order := some "series_position", order_ascending := true }

/-- C4 counterexample: for the simple (non-nested, non-aggregate) sort field
`series_position`, the resolved sort order is series position, then
sort_title, sort_author, work_id — not the claimed fixed suffix sort_author,
sort_title, work_id. -/
theorem claim_C4_sort_order_counterexample :
    seriesPositionFilter.sort_order =
      Except.ok [SortClause.simple "series_position" "asc",
                 SortClause.simple "sort_title" "asc",
                 SortClause.simple "sort_author" "asc",
                 SortClause.simple "work_id" "asc"] ∧
    (Except.ok [SortClause.simple "series_position" "asc",
                SortClause.simple "sort_title" "asc",
                SortClause.simple "sort_author" "asc",
                SortClause.simple "work_id" "asc"] :
       Except String (List SortClause)) ≠
      Except.ok [SortClause.simple "series_position" "asc",
                 SortClause.simple "sort_author" "asc",
                 SortClause.simple "sort_title" "asc",
                 SortClause.simple "work_id" "asc"] := by
  constructor
  · rfl
  · intro h
    have h2 := congrArg (fun x : Except String (List SortClause) =>
      match x with
      | Except.ok l => l.map sortClauseField
      | Except.error _ => []) h
    have h3 : (["series_position", "sort_title", "sort_author", "work_id"] :
        List String) =
        ["series_position", "sort_author", "sort_title", "work_id"] := h2
    exact absurd h3 (by decide)

/-- One primary key that resolves to a plain field sort: no dot, and, if it
is the last-update field, no active collection or custom-list
restriction. -/
theorem make_order_field_simple (f : Filter) (k direction : String)
    (hdot : k.data.contains '.' = false)
    (hlu : k = "last_update_time" →
      f.collection_ids = none ∧ f.customlist_restriction_sets = []) :
    f.make_order_field k direction = Except.ok (SortClause.simple k direction) := by
  have havail : k ≠ "licensepools.availability_time" := by
    intro he
    rw [he] at hdot
    exact absurd hdot (by decide)
  have hlu' : ¬ (k = "last_update_time" ∧
      (f.collection_ids.isSome ∨ f.customlist_restriction_sets ≠ [])) := by
    rintro ⟨he, hact⟩
    rcases hlu he with ⟨h1, h2⟩
    rcases hact with hact | hact
    · rw [h1] at hact
      cases hact
    · exact hact h2
  have hdot' : ¬ k.data.contains '.' = true := by
    rw [hdot]
    intro hf
    cases hf
  unfold Filter.make_order_field
  rw [if_neg havail, if_neg hlu', if_neg hdot']

/-- C4 amended: for every simple (non-nested, non-aggregate) sort field
other than `series_position`, `sort_order` is the single-field sort in the
chosen direction followed by the ascending tie-breakers sort_author,
sort_title, work_id with whichever equals the primary field omitted; for
`series_position`, `sort_title` is pulled forward as the second sort field,
so the suffix is sort_title, sort_author, work_id. -/
theorem claim_C4_sort_order_amended (f : Filter) (field : String)
    (horder : f.order = some field)
    (hdot : field.data.contains '.' = false)
    (hlu : field = "last_update_time" →
      f.collection_ids = none ∧ f.customlist_restriction_sets = []) :
    (field ≠ "series_position" →
      f.sort_order = Except.ok
        (SortClause.simple field (if f.order_ascending then "asc" else "desc") ::
         (TIEBREAKER_FIELDS.filter (fun t => t ≠ field)).map
           (fun t => SortClause.simple t "asc"))) ∧
    (field = "series_position" →
      f.sort_order = Except.ok
        [SortClause.simple "series_position"
           (if f.order_ascending then "asc" else "desc"),
         SortClause.simple "sort_title"
           (if f.order_ascending then "asc" else "desc"),
         SortClause.simple "sort_author" "asc",
         SortClause.simple "work_id" "asc"]) := by
  constructor
  · intro hns
    unfold Filter.sort_order
    rw [horder]
    simp only [if_neg hns]
    unfold Filter.collectSortClauses
    unfold Filter.collectSortClauses
    rw [make_order_field_simple f field _ hdot hlu]
    have hfil : TIEBREAKER_FIELDS.filter (fun t => ¬ [field].contains t) =
        TIEBREAKER_FIELDS.filter (fun t => t ≠ field) := by
      apply List.filter_congr
      intro x _
      by_cases hxf : x = field <;> simp [hxf, List.contains_cons]
    rw [hfil]
    rfl
  · intro hsp
    subst hsp
    unfold Filter.sort_order
    rw [horder]
    have h1 := make_order_field_simple f "series_position"
      (if f.order_ascending then "asc" else "desc") (by decide)
      (fun h => absurd h (by decide))
    have h2 := make_order_field_simple f "sort_title"
      (if f.order_ascending then "asc" else "desc") (by decide)
      (fun h => absurd h (by decide))
    unfold Filter.collectSortClauses
    unfold Filter.collectSortClauses
    unfold Filter.collectSortClauses
    simp only [eq_self_iff_true, if_true, h1, h2]
    rfl

/-- A filter sorted (descending by default) by sort title. -/
def sortTitleFilter : Filter := { emptyFilter with order := some "sort_title" }

/-- C4 witness: a filter sorted by the simple field `sort_title` resolves to
that field in the default descending direction followed by the remaining
ascending tie-breakers sort_author and work_id. -/
theorem claim_C4_sort_order_amended_witness :
    (("sort_title" : String) ≠ "series_position" →
      sortTitleFilter.sort_order = Except.ok
        (SortClause.simple "sort_title"
           (if sortTitleFilter.order_ascending then "asc" else "desc") ::
         (TIEBREAKER_FIELDS.filter (fun t => t ≠ "sort_title")).map
           (fun t => SortClause.simple t "asc"))) ∧
    (("sort_title" : String) = "series_position" →
      sortTitleFilter.sort_order = Except.ok
        [SortClause.simple "series_position"
           (if sortTitleFilter.order_ascending then "asc" else "desc"),
         SortClause.simple "sort_title"
           (if sortTitleFilter.order_ascending then "asc" else "desc"),
         SortClause.simple "sort_author" "asc",
         SortClause.simple "work_id" "asc"]) :=
  claim_C4_sort_order_amended sortTitleFilter "sort_title" rfl (by decide)
    (fun h => absurd h (by decide))

/-- The per-document error list `bulk_update` finally reports: the second
attempt's errors when the whole first attempt failed (and was retried), the
first attempt's errors otherwise. -/
def durableErrors (bulk : Nat → List Nat → List BulkError) (docs : List Nat) :
    List BulkError :=
  if (bulk 0 docs).length = docs.length then bulk 1 docs else bulk 0 docs

/-- With distinct work ids, `find?` by a member's id finds that member. -/
theorem find_by_id (works : List WorkRec) (w : WorkRec)
    (hnodup : (works.map (fun x => x.id)).Nodup) (hw : w ∈ works) :
    works.find? (fun x => x.id = w.id) = some w := by
  induction works with
  | nil => cases hw
  | cons a as ih =>
    rw [List.map_cons, List.nodup_cons] at hnodup
    rcases List.mem_cons.mp hw with rfl | hw'
    · simp [List.find?]
    · have hne : a.id ≠ w.id := by
        intro he
        exact hnodup.1 (he ▸ List.mem_map_of_mem (fun x => x.id) hw')
      have hd : (decide (a.id = w.id)) = false := by
        simp [hne]
      simp [List.find?, hd, ih hnodup.2 hw']

/-- A work named by no reported error is in the success list. -/
theorem partitionResults_mem_success (works : List WorkRec)
    (errors : List BulkError) (w : WorkRec) (hw : w ∈ works)
    (hno : ∀ e ∈ errors, e.doc_id ≠ w.id) :
    w ∈ (partitionResults works errors).1 := by
  unfold partitionResults
  rw [List.mem_filter]
  refine ⟨hw, ?_⟩
  simp only [decide_eq_true_eq]
  intro hcontains
  obtain ⟨d, hd, hbeq⟩ := List.contains_iff_exists_mem_beq.mp hcontains
  obtain ⟨e, he, heq⟩ := List.mem_map.mp hd
  exact hno e he (heq.trans (beq_iff_eq.mp hbeq).symm)

/-- A work named by a reported error is in the failure list, paired with
that error's message. -/
theorem partitionResults_mem_failure (works : List WorkRec)
    (errors : List BulkError) (w : WorkRec) (e : BulkError)
    (hnodup : (works.map (fun x => x.id)).Nodup) (hw : w ∈ works)
    (he : e ∈ errors) (heq : e.doc_id = w.id) :
    (w, e.message) ∈ (partitionResults works errors).2 := by
  unfold partitionResults
  rw [List.mem_filterMap]
  refine ⟨e, he, ?_⟩
  rw [heq, find_by_id works w hnodup hw]
  rfl

/-- C7: per-document bulk-indexing outcomes.  With distinct work ids: every
submitted work ends up a success or a failure; a work no durable error
names succeeds even when other documents fail; every failure pairs an
originating work with the message of the error that named it; and when the
backend fails the entire first batch (the transient case), the batch is
submitted exactly twice with the same arguments, otherwise exactly once. -/
theorem claim_C7_bulk_update_partition_and_retry
    (bulk : Nat → List Nat → List BulkError) (works : List WorkRec)
    (hnodup : (works.map (fun w => w.id)).Nodup) :
    (∀ w ∈ works,
       w ∈ (bulk_update bulk works).1.1 ∨
       ∃ msg, (w, msg) ∈ (bulk_update bulk works).1.2) ∧
    (∀ w ∈ works,
       (∀ e ∈ durableErrors bulk (works.map (fun x => x.id)), e.doc_id ≠ w.id) →
       w ∈ (bulk_update bulk works).1.1) ∧
    (∀ p ∈ (bulk_update bulk works).1.2,
       p.1 ∈ works ∧ ∃ e ∈ durableErrors bulk (works.map (fun x => x.id)),
         e.doc_id = p.1.id ∧ e.message = p.2) ∧
    ((bulk 0 (works.map (fun w => w.id))).length = works.length →
      (bulk_update bulk works).2 =
        [works.map (fun w => w.id), works.map (fun w => w.id)]) ∧
    ((bulk 0 (works.map (fun w => w.id))).length ≠ works.length →
      (bulk_update bulk works).2 = [works.map (fun w => w.id)]) := by
  have hlen : (works.map (fun w => w.id)).length = works.length :=
    List.length_map works (fun w => w.id)
  have hbu1 : (bulk_update bulk works).1 =
      partitionResults works (durableErrors bulk (works.map (fun w => w.id))) := by
    unfold bulk_update durableErrors
    by_cases hc : (bulk 0 (works.map (fun w => w.id))).length =
        (works.map (fun w => w.id)).length
    · rw [if_pos hc, if_pos hc]
    · rw [if_neg hc, if_neg hc]
  have hbu2 : (bulk_update bulk works).2 =
      if (bulk 0 (works.map (fun w => w.id))).length =
          (works.map (fun w => w.id)).length
      then [works.map (fun w => w.id), works.map (fun w => w.id)]
      else [works.map (fun w => w.id)] := by
    unfold bulk_update
    by_cases hc : (bulk 0 (works.map (fun w => w.id))).length =
        (works.map (fun w => w.id)).length
    · rw [if_pos hc, if_pos hc]
    · rw [if_neg hc, if_neg hc]
  refine ⟨?_, ?_, ?_, ?_, ?_⟩
  · intro w hw
    by_cases hfail : ∃ e ∈ durableErrors bulk (works.map (fun x => x.id)),
        e.doc_id = w.id
    · obtain ⟨e, he, heq⟩ := hfail
      right
      exact ⟨e.message, hbu1 ▸ partitionResults_mem_failure works _ w e hnodup hw he heq⟩
    · left
      push_neg at hfail
      exact hbu1 ▸ partitionResults_mem_success works _ w hw hfail
  · intro w hw hno
    exact hbu1 ▸ partitionResults_mem_success works _ w hw hno
  · intro p hp
    rw [hbu1] at hp
    unfold partitionResults at hp
    rw [List.mem_filterMap] at hp
    obtain ⟨e, he, hfind⟩ := hp
    rw [Option.map_eq_some'] at hfind
    obtain ⟨w', hw', hpair⟩ := hfind
    have hmem : w' ∈ works := List.mem_of_find?_eq_some hw'
    have hid : w'.id = e.doc_id := by
      have := List.find?_some hw'
      simpa using this
    rw [← hpair]
    exact ⟨hmem, e, he, hid.symm, rfl⟩
  · intro hc
    rw [hbu2, if_pos (by rw [hlen]; exact hc)]
  · intro hc
    rw [hbu2, if_neg (by rw [hlen]; exact hc)]

/-- The backend mock for the C7 witness: on the first attempt every document
times out; on the retry only document 2 fails. -/
def demoBulk (attempt : Nat) (docs : List Nat) : List BulkError :=
  if attempt = 0 then docs.map (fun d => ⟨d, "Connection Timeout!"⟩)
  else docs.filterMap
    (fun d => if d = 2 then some ⟨2, "There was an error!"⟩ else none)

/-- The two-work batch for the C7 witness. -/
def demoWorks : List WorkRec := [⟨1⟩, ⟨2⟩]

/-- C7 witness: on a concrete two-work batch whose first submission fails
wholesale and whose retry fails only for one document, the partition,
isolation, failure-message and exactly-one-retry properties all hold. -/
theorem claim_C7_bulk_update_witness :
    (∀ w ∈ demoWorks,
       w ∈ (bulk_update demoBulk demoWorks).1.1 ∨
       ∃ msg, (w, msg) ∈ (bulk_update demoBulk demoWorks).1.2) ∧
    (∀ w ∈ demoWorks,
       (∀ e ∈ durableErrors demoBulk (demoWorks.map (fun x => x.id)),
         e.doc_id ≠ w.id) →
       w ∈ (bulk_update demoBulk demoWorks).1.1) ∧
    (∀ p ∈ (bulk_update demoBulk demoWorks).1.2,
       p.1 ∈ demoWorks ∧
       ∃ e ∈ durableErrors demoBulk (demoWorks.map (fun x => x.id)),
         e.doc_id = p.1.id ∧ e.message = p.2) ∧
    ((demoBulk 0 (demoWorks.map (fun w => w.id))).length = demoWorks.length →
      (bulk_update demoBulk demoWorks).2 =
        [demoWorks.map (fun w => w.id), demoWorks.map (fun w => w.id)]) ∧
    ((demoBulk 0 (demoWorks.map (fun w => w.id))).length ≠ demoWorks.length →
      (bulk_update demoBulk demoWorks).2 = [demoWorks.map (fun w => w.id)]) :=
  claim_C7_bulk_update_partition_and_retry demoBulk demoWorks (by decide)

end Circulation
